import Mathlib

/-!
Verification of the lutris-gridder cover-art pipeline
(`src/cover_downloader.py`) against its natural-language specification.

The Python source is shallowly embedded: network calls become oracle
functions passed in explicitly (a `NetResult` models either a
transport-level failure — `requests.exceptions.RequestException`,
which covers both connection errors and the `raise_for_status` path —
or a decoded JSON `data` payload), the filesystem becomes a partial map
from slug to file bytes, and the image arithmetic of `crop_to_fit` is
embedded twice: once over exact rationals (`scaled_dims`, the
idealization in which `int(...)` on the positive values involved is
the floor) and once with Python's IEEE-754 binary64 float semantics
modelled faithfully (`scaled_dims_float`, built on exact dyadic
significand-exponent pairs with correctly rounded operations, ties to
even).  The two models disagree, and the disagreement settles C6.
-/

namespace LutrisGridder

/-- File contents, abstractly: a sequence of byte values. -/
abbrev Bytes := List Nat

/-- A row of the Lutris `games` table: `(name, slug)`, as returned by
`LutrisDB.get_all_games`. -/
structure Game where
  name : String
  slug : String
deriving DecidableEq, Repr

/-- Outcome of one HTTP GET as seen by the Python code: either a
`requests.exceptions.RequestException` (connection failure or a non-2xx
status surfaced by `raise_for_status`), or the decoded `data` field of
the JSON body. -/
inductive NetResult (α : Type) where
  | err : NetResult α
  | ok (a : α) : NetResult α
deriving DecidableEq, Repr

/-- Embedding of `SteamGridDBAPI.search_games` (source lines 96-117).
`fetch name` is the outcome of
`GET /search/autocomplete/{name}`, its payload the list of game ids in
`data`.  The Python control flow, faithfully:

* empty candidate list: `return None`;
* transport error (`except RequestException`): recurse on the tail;
* success with non-empty `data`: return it;
* success with empty/missing `data`: the guard `if data.get("data"):`
  is not taken and the function falls off the end, returning `None`
  (the inner `else` that would recurse is unreachable, because the
  walrus re-tests the very value the outer `if` just found truthy). -/
def search_games (fetch : String → NetResult (List Nat)) :
    List String → Option (List Nat)
  | [] => none
  | name :: rest =>
    match fetch name with
    | .err => search_games fetch rest
    | .ok data => if data.isEmpty then none else some data

/-- Result of `SteamGridDBAPI.get_cover_url` (source lines 119-138): the
Python function either returns a URL string, or raises `IndexError` when
it evaluates `games[0]` on an empty list — that exception is not a
`RequestException`, so the `except` clause does not catch it. -/
inductive CoverResult where
  | url (u : String)
  | indexError
deriving DecidableEq, Repr

/-- Embedding of `SteamGridDBAPI.get_cover_url` (source lines 119-138).
`fetch gid` is the outcome of `GET /grids/game/{gid}?dimensions=...`,
its payload the list of cover URLs in `data`.  Faithfully:

* empty candidate list: `games[0]["id"]` raises `IndexError` (there is
  no base case in the source, unlike `search_games`);
* transport error: recurse on `games[1:]`;
* success with empty/missing `data`: recurse on `games[1:]`;
* success with non-empty `data`: return `data["data"][0]["url"]`. -/
def get_cover_url (fetch : Nat → NetResult (List String)) :
    List Nat → CoverResult
  | [] => .indexError
  | g :: rest =>
    match fetch g with
    | .err => get_cover_url fetch rest
    | .ok covers =>
      match covers with
      | [] => get_cover_url fetch rest
      | u :: _ => .url u

/-- PIL modes that carry an alpha channel (per the Pillow documentation
on image modes). -/
def pil_alpha_modes : List String := ["RGBA", "LA", "PA", "RGBa", "La"]

/-- PIL modes with a 3-channel color model. -/
def three_channel_modes : List String := ["RGB", "YCbCr", "HSV", "LAB"]

/-- The mode-conversion step of `ImageProcessor.crop_to_fit` (source
lines 50-53): `if img.mode == 'RGBA': img = img.convert('RGB')`.  Every
other mode passes through unchanged. -/
def convert_mode (m : String) : String :=
  if m = "RGBA" then "RGB" else m

/-- Dimensions of the intermediate scaled image in
`ImageProcessor.crop_to_fit` (source lines 55-70), in the
EXACT-ARITHMETIC IDEALIZATION: Python's binary64 float divisions are
replaced by exact rational arithmetic.  (`scaled_dims_float` below is
the binary64-faithful embedding; the two can differ, and the fill
invariant separates them — see the C6 theorems.)
With `current_ratio = w / h` and `target_ratio = tw / th`:

* if `current_ratio > target_ratio`: `new_height = th`,
  `new_width = int(th * current_ratio)`;
* else: `new_width = tw`, `new_height = int(tw / current_ratio)`.

`int(...)` truncates toward zero, which on these non-negative values is
the floor. -/
def scaled_dims (w h tw th : ℕ) : ℤ × ℤ :=
  if ((tw : ℚ) / (th : ℚ)) < ((w : ℚ) / (h : ℚ)) then
    (⌊(th : ℚ) * ((w : ℚ) / (h : ℚ))⌋, (th : ℤ))
  else
    ((tw : ℤ), ⌊(tw : ℚ) / ((w : ℚ) / (h : ℚ))⌋)

/-- Floor of the base-2 logarithm of a natural number, by fuelled
halving (structural recursion so that concrete instances reduce in the
kernel); fuel 1100 covers the entire binary64 range. -/
def log2fuel : ℕ → ℕ → ℕ
  | 0, _ => 0
  | fuel + 1, n => if n ≤ 1 then 0 else log2fuel fuel (n / 2) + 1

/-- The exact value `(a / b) * 2 ^ k` as an integer fraction
(numerator, denominator): powers of two only ever scale one side, so
the fraction stays exact. -/
def mulPow2 (a b k : ℤ) : ℤ × ℤ :=
  if 0 ≤ k then (a * 2 ^ k.toNat, b) else (a, b * 2 ^ (-k).toNat)

/-- Floor of the base-2 logarithm of the positive fraction `a / b`:
the difference of the operands' logarithms is either the answer or one
too large, which the final comparison `2 ^ e0 ≤ a / b` settles. -/
def fracLog2 (a b : ℤ) : ℤ :=
  let e0 : ℤ := (log2fuel 1100 a.toNat : ℤ) - (log2fuel 1100 b.toNat : ℤ)
  let p := mulPow2 b 1 e0
  if p.1 ≤ a * p.2 then e0 else e0 - 1

/-- Round the fraction `a / b` (with `b > 0`) to the nearest integer,
ties to even — the IEEE-754 default rounding attitude on an integer
grid.  `r2` is twice the remainder of the floor division, compared
against the denominator to pick the nearer neighbour. -/
def nearestEvenDiv (a b : ℤ) : ℤ :=
  let f := Int.fdiv a b
  let r2 := 2 * (a - f * b)
  if r2 < b then f
  else if b < r2 then f + 1
  else if f % 2 = 0 then f else f + 1

/-- The IEEE-754 binary64 (double) value nearest the positive fraction
`a / b`, ties to even, as an exact dyadic pair (significand, exponent)
denoting `m * 2 ^ e` with `2 ^ 52 ≤ m ≤ 2 ^ 53`: scale the fraction so
its value lands in the 53-bit significand range, then round to the
grid.  Exponent overflow and subnormals are not modelled; every
quantity in this development is far inside the normal range. -/
def roundFd (a b : ℤ) : ℤ × ℤ :=
  let e := fracLog2 a b
  let s := mulPow2 a b (52 - e)
  (nearestEvenDiv s.1 s.2, e - 52)

/-- Exact strict comparison of two dyadic values `m * 2 ^ e` (the
comparison of two doubles is exact): align exponents, compare
significands. -/
def fdLt (x y : ℤ × ℤ) : Bool :=
  if x.2 ≤ y.2 then decide (x.1 < y.1 * 2 ^ (y.2 - x.2).toNat)
  else decide (x.1 * 2 ^ (x.2 - y.2).toNat < y.1)

/-- Binary64 product of an integer (exactly converted, as every
dimension here is below `2 ^ 53`) with a double: the exact product,
correctly rounded — IEEE multiplication. -/
def fdMulInt (k : ℤ) (x : ℤ × ℤ) : ℤ × ℤ :=
  let s := mulPow2 (k * x.1) 1 x.2
  roundFd s.1 s.2

/-- Binary64 quotient of an integer (exactly converted) by a double:
the exact quotient, correctly rounded — IEEE division. -/
def fdDivInt (k : ℤ) (x : ℤ × ℤ) : ℤ × ℤ :=
  let s := mulPow2 k x.1 (-x.2)
  roundFd s.1 s.2

/-- Python `int(...)` on a positive double `m * 2 ^ e`: truncation
toward zero, i.e. the floor. -/
def fdFloor (x : ℤ × ℤ) : ℤ :=
  if 0 ≤ x.2 then x.1 * 2 ^ x.2.toNat else Int.fdiv x.1 (2 ^ (-x.2).toNat)

/-- Dimensions of the intermediate scaled image in
`ImageProcessor.crop_to_fit` (source lines 55-70) with Python's
IEEE-754 double arithmetic modelled faithfully:
`current_ratio = img.width / img.height` and
`target_ratio = target_width / target_height` are correctly rounded
binary64 divisions of exactly converted integers, the branch compares
the two rounded doubles, and each scaled dimension is `int(...)` of a
correctly rounded binary64 product (`int(th * current_ratio)`) or
quotient (`int(tw / current_ratio)`).  Validated against CPython float
semantics on the branch structure and values. -/
def scaled_dims_float (w h tw th : ℕ) : ℤ × ℤ :=
  let cr := roundFd (w : ℤ) (h : ℤ)
  let tr := roundFd (tw : ℤ) (th : ℤ)
  if fdLt tr cr then
    (fdFloor (fdMulInt (th : ℤ) cr), (th : ℤ))
  else
    ((tw : ℤ), fdFloor (fdDivInt (tw : ℤ) cr))

/-- The centered crop box of `ImageProcessor.crop_to_fit` (source lines
72-76): `left = (new_width - target_width) // 2`,
`top = (new_height - target_height) // 2`, `right = left + target_width`,
`bottom = top + target_height`.  Python `//` is floor division, hence
`Int.fdiv`. -/
def crop_box (nw nh : ℤ) (tw th : ℕ) : ℤ × ℤ × ℤ × ℤ :=
  let left := Int.fdiv (nw - (tw : ℤ)) 2
  let top := Int.fdiv (nh - (th : ℤ)) 2
  (left, top, left + (tw : ℤ), top + (th : ℤ))

/-- Pixel dimensions of `img.crop((l, t, r, b))` in PIL: the result
always has exactly `r - l` by `b - t` pixels (regions outside the source
are padded), so this is `(r - l, b - t)`. -/
def crop_output_dims (box : ℤ × ℤ × ℤ × ℤ) : ℤ × ℤ :=
  (box.2.2.1 - box.1, box.2.2.2 - box.2.1)

/-- Dimensions of the final image produced by
`ImageProcessor.crop_to_fit` on a `w`-by-`h` input with target
`(tw, th)`: resize to `scaled_dims`, then crop to the centered
`crop_box`. -/
def crop_to_fit_dims (w h tw th : ℕ) : ℤ × ℤ :=
  let nd := scaled_dims w h tw th
  crop_output_dims (crop_box nd.1 nd.2 tw th)

/-- `Config.BANNER_DIMENSIONS` (source line 23). -/
def BANNER_DIMENSIONS : ℕ × ℕ := (574, 215)

/-- `Config.COVER_DIMENSIONS` (source line 24). -/
def COVER_DIMENSIONS : ℕ × ℕ := (675, 900)

/-- The two choices of the cover-type prompt in
`CoverArtDownloader._get_cover_type` (source lines 195-220). -/
inductive CoverType where
  | banner
  | vertical
deriving DecidableEq, Repr

/-- Embedding of `CoverArtDownloader._get_cover_type` (source lines
195-220): maps the prompt answer to
`(dimension_str, cover_path, target_dimensions)`. -/
def get_cover_type : CoverType → String × String × (ℕ × ℕ)
  | .banner => ("460x215", ".cache/lutris/banners", BANNER_DIMENSIONS)
  | .vertical => ("600x900", ".cache/lutris/coverart", COVER_DIMENSIONS)

/-- The crop flag as computed at the top of
`CoverArtDownloader.process_games` (source lines 263-266):
`crop_to_fit = False`, then
`if target_dimensions == Config.COVER_DIMENSIONS: crop_to_fit =
self._get_crop_to_fit()`.  `promptYes` is the answer the crop prompt
would return if asked. -/
def crop_flag (ct : CoverType) (promptYes : Bool) : Bool :=
  if (get_cover_type ct).2.2 = COVER_DIMENSIONS then promptYes else false

/-- The filesystem state of the cover cache directory: for each slug,
the bytes of `{cache_dir}/{slug}.jpg` if that file exists. -/
abbrev FS := String → Option Bytes

/-- The external world as `process_games` sees it for one run:
the search and cover endpoints, the image download, the outcome of
`ImageProcessor.crop_to_fit` on given input bytes (`none` models the
`raise` on line 86; `some b` the transformed file contents), and the
crop flag chosen for the run. -/
structure Env where
  search : String → NetResult (List Nat)
  covers : Nat → NetResult (List String)
  download : String → NetResult Bytes
  cropResult : Bytes → Option Bytes
  cropToFit : Bool

/-- Per-game terminal states of the pipeline (spec section 4.4), plus
`runAborted` for an exception that escapes the per-game boundary of
`process_games` and kills the whole batch. -/
inductive GameOutcome where
  | skipped
  | noMatch
  | noCover
  | failed
  | done
  | runAborted
deriving DecidableEq, Repr

/-- Observable side effects of processing one game. -/
inductive Action where
  | searched
  | coverLookup
  | downloaded
  | wrote
  | transformed
deriving DecidableEq, Repr

/-- Result of one iteration of the loop in
`CoverArtDownloader.process_games`. -/
structure StepResult where
  outcome : GameOutcome
  fs : FS
  trace : List Action
  aborted : Bool

/-- One iteration of the per-game loop of
`CoverArtDownloader.process_games` (source lines 275-309), faithfully:

1. `if cover_file.exists(): continue` — skip, nothing else happens;
2. `games = self.api.search_games([game_name, game_slug])`;
   `if not games: continue`;
3. `cover_url = self.api.get_cover_url(games, dimension_str)` — this
   call is OUTSIDE the `try`, so an `IndexError` raised by candidate
   exhaustion aborts the whole run; `if not cover_url: continue` (a
   string is falsy exactly when empty);
4. inside `try`: download (any `RequestException` lands in the
   `except Exception` handler: logged, `continue`); write the raw bytes
   to the artifact; if the crop flag is set run `crop_to_fit` in place —
   on failure the handler logs and continues, the raw file stays. -/
def process_one (env : Env) (fs : FS) (g : Game) : StepResult :=
  if (fs g.slug).isSome then
    ⟨.skipped, fs, [], false⟩
  else
    match search_games env.search [g.name, g.slug] with
    | none => ⟨.noMatch, fs, [.searched], false⟩
    | some cands =>
      match get_cover_url env.covers cands with
      | .indexError => ⟨.runAborted, fs, [.searched, .coverLookup], true⟩
      | .url u =>
        if u = "" then ⟨.noCover, fs, [.searched, .coverLookup], false⟩
        else
          match env.download u with
          | .err => ⟨.failed, fs, [.searched, .coverLookup, .downloaded], false⟩
          | .ok b =>
            let fs1 : FS := Function.update fs g.slug (some b)
            if env.cropToFit then
              match env.cropResult b with
              | none =>
                ⟨.failed, fs1,
                  [.searched, .coverLookup, .downloaded, .wrote, .transformed],
                  false⟩
              | some b2 =>
                ⟨.done, Function.update fs1 g.slug (some b2),
                  [.searched, .coverLookup, .downloaded, .wrote, .transformed],
                  false⟩
            else
              ⟨.done, fs1, [.searched, .coverLookup, .downloaded, .wrote], false⟩

/-- Result of a whole `process_games` run over the game list. -/
structure RunResult where
  fs : FS
  outcomes : List GameOutcome
  trace : List Action
  aborted : Bool

/-- The per-game loop of `CoverArtDownloader.process_games` over the
full list returned by `get_all_games`: games are processed one at a
time in listing order; an uncaught exception in one iteration aborts
the loop, leaving the remaining games unprocessed. -/
def process_games (env : Env) (fs : FS) : List Game → RunResult
  | [] => ⟨fs, [], [], false⟩
  | g :: gs =>
    let r := process_one env fs g
    if r.aborted then
      ⟨r.fs, [r.outcome], r.trace, true⟩
    else
      let rest := process_games env r.fs gs
      ⟨rest.fs, r.outcome :: rest.outcomes, r.trace ++ rest.trace, rest.aborted⟩

/-- The empty cover cache: no artifact file exists. -/
def emptyFS : FS := fun _ => none

/-- Search oracle where the name "X" answers 200 with an empty `data`
list and "Y" answers with one game id. -/
def fetchEmptyThenHit : String → NetResult (List Nat) := fun n =>
  if n = "X" then .ok [] else if n = "Y" then .ok [7] else .err

/-- Search oracle where the name "X" fails at the transport level and
"Y" answers with one game id. -/
def fetchErrThenHit : String → NetResult (List Nat) := fun n =>
  if n = "X" then .err else if n = "Y" then .ok [7] else .err

/-- Cover oracle where game id 5 answers 200 with an empty `data` list. -/
def coversAllEmpty : Nat → NetResult (List String) := fun g =>
  if g = 5 then .ok [] else .err

/-- Cover oracle where game id 1 has no covers and game id 2 has one. -/
def coversSecondHasCover : Nat → NetResult (List String) := fun g =>
  if g = 1 then .ok [] else if g = 2 then .ok ["u2", "u3"] else .err

/-- A run environment in which game "G1" matches catalog id 42 whose
cover list is empty (so `get_cover_url` exhausts its candidates), while
game "G2" matches id 43 which has a cover that downloads fine. -/
def envC1 : Env where
  search := fun n => if n = "G1" then .ok [42] else if n = "G2" then .ok [43] else .err
  covers := fun g => if g = 42 then .ok [] else if g = 43 then .ok ["cu"] else .err
  download := fun _ => .ok [1]
  cropResult := fun b => some b
  cropToFit := false

/-- An inert environment: every remote call fails. -/
def envAllErr : Env where
  search := fun _ => .err
  covers := fun _ => .err
  download := fun _ => .err
  cropResult := fun _ => none
  cropToFit := false

/-- A cache that already holds an artifact for slug "half-life". -/
def fsHalfLife : FS := fun s =>
  if s = "half-life" then some [1, 2] else none

/-- An environment where every step succeeds up to the image transform,
which fails; the crop flag is set. -/
def envTransformFails : Env where
  search := fun _ => .ok [1]
  covers := fun _ => .ok ["http-u"]
  download := fun _ => .ok [9, 9]
  cropResult := fun _ => none
  cropToFit := true

/-- An environment where every step succeeds and the crop flag is off,
as in a Banner run. -/
def envNoCrop : Env where
  search := fun _ => .ok [1]
  covers := fun _ => .ok ["http-u"]
  download := fun _ => .ok [9, 9]
  cropResult := fun _ => some [7]
  cropToFit := false

/-! Helper lemmas (shared) -/

/-- An artifact present before a per-game step is still present, with
the same bytes, after it: the step writes only to its own slug, and
only when that slug had no file. -/
theorem process_one_preserves_existing (env : Env) (fs : FS) (g : Game)
    (slug : String) (b : Bytes) (h : fs slug = some b) :
    (process_one env fs g).fs slug = some b := by
  by_cases hgs : g.slug = slug
  · have hsome : (fs g.slug).isSome := by rw [hgs, h]; rfl
    simpa [process_one, hsome] using h
  · have hupd : ∀ v : Option Bytes, ∀ f : FS, Function.update f g.slug v slug = f slug :=
      fun v f => Function.update_noteq (Ne.symm hgs) v f
    unfold process_one
    split
    · exact h
    · split
      · exact h
      · split
        · exact h
        · split
          · exact h
          · split
            · exact h
            · split
              · split
                · simpa [hupd] using h
                · simpa [hupd] using h
              · simpa [hupd] using h

/-- When the crop flag is off, a per-game step never invokes the image
transformer. -/
theorem process_one_no_transform (env : Env) (henv : env.cropToFit = false)
    (fs : FS) (g : Game) :
    Action.transformed ∉ (process_one env fs g).trace := by
  unfold process_one
  simp only [henv, Bool.false_eq_true, if_false]
  split
  · simp
  · split
    · simp
    · split
      · simp
      · split
        · simp
        · split
          · simp
          · simp

/-- When the crop flag is off, no step of a whole run ever invokes the
image transformer. -/
theorem process_games_no_transform (env : Env) (henv : env.cropToFit = false)
    (fs : FS) (gs : List Game) :
    Action.transformed ∉ (process_games env fs gs).trace := by
  induction gs generalizing fs with
  | nil => simp [process_games]
  | cons g gs ih =>
    simp only [process_games]
    split
    · exact process_one_no_transform env henv fs g
    · simp only [List.mem_append, not_or]
      exact ⟨process_one_no_transform env henv fs g, ih _⟩

/-- When the crop flag is off and a per-game step ends in `done`, the
artifact holds exactly the bytes some download returned, verbatim. -/
theorem process_one_done_verbatim (env : Env) (henv : env.cropToFit = false)
    (fs : FS) (g : Game)
    (hdone : (process_one env fs g).outcome = GameOutcome.done) :
    ∃ u b, env.download u = NetResult.ok b ∧
      (process_one env fs g).fs g.slug = some b := by
  unfold process_one at hdone ⊢
  by_cases hex : (fs g.slug).isSome
  · simp [hex] at hdone
  · simp only [hex, if_false] at hdone ⊢
    cases hs : search_games env.search [g.name, g.slug] with
    | none => simp [hs] at hdone
    | some cands =>
      simp only [hs] at hdone ⊢
      cases hc : get_cover_url env.covers cands with
      | indexError => simp [hc] at hdone
      | url u =>
        simp only [hc] at hdone ⊢
        by_cases hu : u = ""
        · simp [hu] at hdone
        · simp only [if_neg hu] at hdone ⊢
          cases hd : env.download u with
          | err => simp [hd] at hdone
          | ok b =>
            simp only [hd, henv, Bool.false_eq_true, if_false] at hdone ⊢
            exact ⟨u, b, hd, by simp⟩

/-! C1.  Spec: all per-game errors are caught at the pipeline's
per-game boundary and converted into a logged skip; only store-access
and configuration errors terminate the run. -/

/-- C1 (code bug): a per-game cover-lookup error escapes the per-game
boundary and kills the batch.  In `envC1` game "G1" matches a catalog
entry whose cover list is empty, so `get_cover_url` recurses to the
empty candidate list and raises `IndexError`; the call on line 288 of
`process_games` sits outside the per-game `try`, so the run aborts and
"G2" — which on its own processes to `done` — is never reached. -/
theorem per_game_error_aborts_run :
    (process_games envC1 emptyFS [⟨"G1", "g1"⟩, ⟨"G2", "g2"⟩]).aborted = true ∧
    (process_games envC1 emptyFS [⟨"G1", "g1"⟩, ⟨"G2", "g2"⟩]).outcomes =
      [GameOutcome.runAborted] ∧
    (process_games envC1 emptyFS [⟨"G2", "g2"⟩]).outcomes = [GameOutcome.done] := by
  refine ⟨rfl, rfl, rfl⟩

/-! C2.  Spec: `search_games` advances to the next candidate name both
on transport failure and on an empty result set. -/

/-- C2 (code bug): on an empty result set `search_games` returns `None`
instead of advancing — the recursive call for that case is dead code
behind `if data.get("data"):`.  With candidates `["X", "Y"]` where "X"
answers 200 with empty `data` and "Y" has a hit, the code yields `none`;
the transport-failure half of the fallback does work. -/
theorem search_games_stops_on_empty_result :
    search_games fetchEmptyThenHit ["X", "Y"] = none ∧
    search_games fetchErrThenHit ["X", "Y"] = some [7] := by
  refine ⟨rfl, rfl⟩

/-! C3.  Spec: `get_cover_url` returns none when the candidate list is
exhausted, including on an empty candidate list. -/

/-- C3 (code bug): `get_cover_url` has no base case (unlike
`search_games`), so on the empty candidate list `games[0]` raises
`IndexError`, which the `except RequestException` clause does not
catch; the same happens after exhausting a list whose every candidate
has an empty cover list. -/
theorem get_cover_url_exhaustion_raises :
    get_cover_url coversAllEmpty [] = CoverResult.indexError ∧
    get_cover_url coversAllEmpty [5] = CoverResult.indexError := by
  refine ⟨rfl, rfl⟩

/-! C9.  Spec claim: any input mode with an alpha channel (RGBA, LA,
PA, ...) is converted to a 3-channel model. -/

/-- C9 counterexample: the source only tests `img.mode == 'RGBA'`; the
alpha-bearing mode "LA" is passed through unconverted and is not a
3-channel model. -/
theorem alpha_mode_la_not_converted :
    "LA" ∈ pil_alpha_modes ∧ convert_mode "LA" = "LA" ∧
    "LA" ∉ three_channel_modes := by decide

/-- C9 amended: exactly the RGBA mode is converted to the 3-channel RGB
model; every other alpha-bearing mode passes through unchanged. -/
theorem convert_mode_rgba_only :
    convert_mode "RGBA" ∈ three_channel_modes ∧
    ∀ m ∈ pil_alpha_modes, m ≠ "RGBA" → convert_mode m = m := by decide

/-- C9 amended, witness: the alpha mode "LA" is left unchanged. -/
theorem convert_mode_rgba_only_witness :
    convert_mode "LA" = "LA" :=
  convert_mode_rgba_only.2 "LA" (by decide) (by decide)

/-! C4.  Spec: an existing artifact file makes the game `Skipped` with
no search, download or write, and an existing artifact is never
overwritten during a run. -/

/-- C4: if the artifact for `slug` already exists with bytes `b`, then
(i) a whole run leaves it holding exactly `b`, and (ii) the per-game
step for any game with that slug is a bare skip: state `Skipped`, the
cache untouched, no search, cover lookup, download, write or transform
performed, and no abort. -/
theorem existing_artifact_never_overwritten (env : Env) (fs : FS) (gs : List Game)
    (slug : String) (b : Bytes) (h : fs slug = some b) :
    (process_games env fs gs).fs slug = some b ∧
    ∀ name : String,
      process_one env fs ⟨name, slug⟩ = ⟨GameOutcome.skipped, fs, [], false⟩ := by
  constructor
  · induction gs generalizing fs with
    | nil => exact h
    | cons g gs ih =>
      have hstep := process_one_preserves_existing env fs g slug b h
      simp only [process_games]
      split
      · exact hstep
      · exact ih _ hstep
  · intro name
    have hsome : (fs slug).isSome := by rw [h]; rfl
    simp [process_one, hsome]

/-- C4 witness: with an artifact already cached for "half-life", a run
over a one-game list leaves its bytes unchanged, and the step for that
game is a bare skip. -/
theorem existing_artifact_never_overwritten_witness :
    (process_games envAllErr fsHalfLife [⟨"a", "half-life"⟩]).fs "half-life" =
      some [1, 2] ∧
    process_one envAllErr fsHalfLife ⟨"a", "half-life"⟩ =
      ⟨GameOutcome.skipped, fsHalfLife, [], false⟩ := by
  have h := existing_artifact_never_overwritten envAllErr fsHalfLife
    [⟨"a", "half-life"⟩] "half-life" [1, 2] (by decide)
  exact ⟨h.1, h.2 "a"⟩

/-! C5.  Spec: the transformer's output has exactly the requested pixel
dimensions, for every input aspect ratio. -/

/-- C5: for positive input and target dimensions, `crop_to_fit`
produces an image of exactly the target width and height — PIL's `crop`
returns exactly the pixel size of the requested box, and the box is
built as `(left, top, left + tw, top + th)`. -/
theorem crop_to_fit_output_dims_exact (w h tw th : ℕ)
    (hw : 0 < w) (hh : 0 < h) (htw : 0 < tw) (hth : 0 < th) :
    crop_to_fit_dims w h tw th = ((tw : ℤ), (th : ℤ)) := by
  simp only [crop_to_fit_dims, crop_output_dims, crop_box]
  simp [Prod.ext_iff]

/-- C5 witness: a 1200-by-1600 input with target 675-by-900 comes out
exactly 675 by 900. -/
theorem crop_to_fit_output_dims_exact_witness :
    crop_to_fit_dims 1200 1600 675 900 = ((675 : ℤ), (900 : ℤ)) :=
  crop_to_fit_output_dims_exact 1200 1600 675 900
    (by decide) (by decide) (by decide) (by decide)

/-! C6.  Spec claim: the intermediate scaled image covers the target
box on both axes, despite the integer truncation.  That universal
claim is about the program's binary64 arithmetic, and there it fails:
double rounding can push the computed ratio up and the subsequent
quotient down, so `int(...)` lands one below the target. -/

/-- C6 counterexample: under the program's IEEE-754 double arithmetic
the fill invariant fails.  For a 4503599627372837-by-4096 input and a
7696581394436-by-7 target box, `target_width / target_height` (exactly
`2 ^ 40 + 4 / 7`) rounds UP to the same double as the exactly
representable `img.width / img.height`, so the ratios compare equal
and the else branch runs; there `target_width / current_ratio` is
exactly `7 - 3 / 4503599627372837`, which rounds DOWN to
`7 - 2 ^ (-50)`, and `int(...)` truncates it to a scaled height of 6 —
one pixel short of the target height 7.  (Checked against CPython:
`int(7696581394436 / (4503599627372837 / 4096))` is 6.) -/
theorem scaled_dims_float_below_target :
    scaled_dims_float 4503599627372837 4096 7696581394436 7 =
      (7696581394436, 6) ∧
    ¬ ((7 : ℤ) ≤ (scaled_dims_float 4503599627372837 4096 7696581394436 7).2) := by
  decide

/-- C6 as amended: the fill invariant holds in the exact-arithmetic
idealization of the scaling step.  For positive input and target
dimensions, the scaled image computed with exact rational ratios has
width at least the target width and height at least the target height:
the `int(...)` truncation alone cannot drop a dimension below the
target, because the exact value being truncated is at least the
(integral) target.  It is the double rounding exhibited by the
counterexample above, not the truncation, that can break the
invariant. -/
theorem scaled_dims_fill (w h tw th : ℕ)
    (hw : 0 < w) (hh : 0 < h) (htw : 0 < tw) (hth : 0 < th) :
    (tw : ℤ) ≤ (scaled_dims w h tw th).1 ∧
    (th : ℤ) ≤ (scaled_dims w h tw th).2 := by
  have hw' : (0 : ℚ) < w := by exact_mod_cast hw
  have hh' : (0 : ℚ) < h := by exact_mod_cast hh
  have htw' : (0 : ℚ) < tw := by exact_mod_cast htw
  have hth' : (0 : ℚ) < th := by exact_mod_cast hth
  unfold scaled_dims
  split
  · rename_i hlt
    refine ⟨?_, by simp⟩
    rw [Int.le_floor]
    push_cast
    rw [div_lt_div_iff hth' hh'] at hlt
    rw [← mul_div_assoc, le_div_iff hh']
    nlinarith
  · rename_i hge
    refine ⟨by simp, ?_⟩
    rw [not_lt, div_le_div_iff hh' hth'] at hge
    rw [Int.le_floor]
    push_cast
    rw [div_div_eq_mul_div, le_div_iff hw']
    nlinarith

/-- C6 amended, witness: an 800-by-600 input scaled for target
675-by-900 gives an intermediate image of 1200 by 900, covering the
target box. -/
theorem scaled_dims_fill_witness :
    (675 : ℤ) ≤ (scaled_dims 800 600 675 900).1 ∧
    (900 : ℤ) ≤ (scaled_dims 800 600 675 900).2 :=
  scaled_dims_fill 800 600 675 900 (by decide) (by decide) (by decide) (by decide)

/-! C7.  Spec: `get_cover_url` tries candidates strictly in rank order;
the first candidate yielding at least one cover wins with its first
cover URL. -/

/-- C7: if every candidate before `g` either fails at the transport
level or has an empty cover list, and `g`'s cover list starts with `u`,
then `get_cover_url` returns `u` — in particular a second-ranked
candidate's first cover URL is returned when the first candidate has no
matching cover. -/
theorem get_cover_url_first_nonempty_wins (fetch : Nat → NetResult (List String))
    (pre post : List Nat) (g : Nat) (u : String) (us : List String)
    (hpre : ∀ gg ∈ pre, fetch gg = NetResult.err ∨ fetch gg = NetResult.ok [])
    (hg : fetch g = NetResult.ok (u :: us)) :
    get_cover_url fetch (pre ++ g :: post) = CoverResult.url u := by
  induction pre with
  | nil => simp [get_cover_url, hg]
  | cons p ps ih =>
    have hrest : ∀ gg ∈ ps, fetch gg = NetResult.err ∨ fetch gg = NetResult.ok [] :=
      fun gg hgg => hpre gg (List.mem_cons_of_mem p hgg)
    rcases hpre p (List.mem_cons_self p ps) with hp | hp
    · simpa [get_cover_url, hp] using ih hrest
    · simpa [get_cover_url, hp] using ih hrest

/-- C7 witness: candidate 1 has no covers, candidate 2's first cover is
"u2"; `get_cover_url` on `[1, 2]` returns "u2". -/
theorem get_cover_url_first_nonempty_wins_witness :
    get_cover_url coversSecondHasCover [1, 2] = CoverResult.url "u2" :=
  get_cover_url_first_nonempty_wins coversSecondHasCover [1] [] 2 "u2" ["u3"]
    (by decide) (by decide)

/-! C8.  Spec: a transform failure after download+write leaves the raw
artifact on disk, marks the game failed, and the run continues. -/

/-- C8: when a game's artifact is absent, search and cover lookup
succeed, the download returns bytes `b`, the crop flag is set and the
transform fails, then the step ends in state `failed` without aborting,
the artifact holds exactly the raw bytes `b`, and the run goes on to
process the remaining games. -/
theorem transform_failure_keeps_raw_artifact (env : Env) (fs : FS) (g : Game)
    (gs : List Game) (cands : List Nat) (u : String) (b : Bytes)
    (hex : fs g.slug = none)
    (hs : search_games env.search [g.name, g.slug] = some cands)
    (hc : get_cover_url env.covers cands = CoverResult.url u)
    (hu : u ≠ "")
    (hd : env.download u = NetResult.ok b)
    (hcrop : env.cropToFit = true)
    (htr : env.cropResult b = none) :
    process_one env fs g =
      ⟨GameOutcome.failed, Function.update fs g.slug (some b),
        [Action.searched, Action.coverLookup, Action.downloaded, Action.wrote,
          Action.transformed], false⟩ ∧
    (process_one env fs g).fs g.slug = some b ∧
    (process_games env fs (g :: gs)).outcomes =
      GameOutcome.failed ::
        (process_games env (Function.update fs g.slug (some b)) gs).outcomes := by
  have hstep : process_one env fs g =
      ⟨GameOutcome.failed, Function.update fs g.slug (some b),
        [Action.searched, Action.coverLookup, Action.downloaded, Action.wrote,
          Action.transformed], false⟩ := by
    unfold process_one
    simp [hex, hs, hc, hu, hd, hcrop, htr]
  refine ⟨hstep, ?_, ?_⟩
  · rw [hstep]; simp
  · simp only [process_games]
    rw [hstep]
    simp

/-- C8 witness: in `envTransformFails` the game ("N", "s") downloads
bytes `[9, 9]`, the transform fails, the raw bytes stay on disk and the
next game is still processed. -/
theorem transform_failure_keeps_raw_artifact_witness :
    (process_one envTransformFails emptyFS ⟨"N", "s"⟩).fs "s" = some [9, 9] ∧
    (process_games envTransformFails emptyFS [⟨"N", "s"⟩, ⟨"M", "t"⟩]).outcomes =
      GameOutcome.failed ::
        (process_games envTransformFails
          (Function.update emptyFS "s" (some [9, 9])) [⟨"M", "t"⟩]).outcomes := by
  have h := transform_failure_keeps_raw_artifact envTransformFails emptyFS
    ⟨"N", "s"⟩ [⟨"M", "t"⟩] [1] "http-u" [9, 9]
    rfl rfl rfl (by decide) rfl rfl rfl
  exact ⟨h.2.1, h.2.2⟩

/-! C10.  Implicit claim: in a Banner run the crop flag is never set,
so the transformer is never invoked and successful artifacts hold the
verbatim downloaded bytes. -/

/-- C10: the crop flag computed by `process_games` is `false` for the
Banner cover type whatever the crop prompt would answer (the prompt is
only reached for the Vertical type); and in any run whose crop flag is
off, no step ever invokes the transformer, and a game that ends `done`
has its artifact equal, byte for byte, to what the download returned. -/
theorem banner_run_never_transforms (answer : Bool) (env : Env)
    (henv : env.cropToFit = false) (fs : FS) (g : Game) (gs : List Game) :
    crop_flag CoverType.banner answer = false ∧
    Action.transformed ∉ (process_games env fs gs).trace ∧
    ((process_one env fs g).outcome = GameOutcome.done →
      ∃ u b, env.download u = NetResult.ok b ∧
        (process_one env fs g).fs g.slug = some b) :=
  ⟨by simp [crop_flag, get_cover_type, BANNER_DIMENSIONS, COVER_DIMENSIONS],
   process_games_no_transform env henv fs gs,
   process_one_done_verbatim env henv fs g⟩

/-- C10 witness: in the no-crop environment, a run over one game never
transforms, and the successful artifact for slug "s" holds the
downloaded bytes. -/
theorem banner_run_never_transforms_witness :
    crop_flag CoverType.banner true = false ∧
    Action.transformed ∉ (process_games envNoCrop emptyFS [⟨"N", "s"⟩]).trace ∧
    ((process_one envNoCrop emptyFS ⟨"N", "s"⟩).outcome = GameOutcome.done →
      ∃ u b, envNoCrop.download u = NetResult.ok b ∧
        (process_one envNoCrop emptyFS ⟨"N", "s"⟩).fs "s" = some b) :=
  banner_run_never_transforms true envNoCrop rfl emptyFS ⟨"N", "s"⟩ [⟨"N", "s"⟩]

end LutrisGridder
